import Mathlib

/-!
Shallow embedding of the PDF-operations core of the PDF2 repository
(`src/pdf_processor.py` and the page-range parser of `src/pdf_tool.py`),
together with theorems settling the frozen claims about it.

Modelling conventions:
* Python exceptions become an inductive `PyExc`; fallible code returns
  `Except PyExc α`.  `PDFValidationError` and `PDFOperationError` are the
  two typed errors of the core; `valueError` models the Python built-in
  `ValueError` (raised e.g. by `int()`), and `otherError` any other
  built-in exception (`TypeError`, `IndexError`, `AttributeError`, ...).
* The filesystem is an association list from path strings to files.  A file
  carries its byte size and its content; content is either a parseable PDF
  (a page list plus flags) or data that `PdfReader` rejects.  Directory
  creation (`os.makedirs`) is not modelled; writes simply bind the path.
  `os.remove` is modelled as always succeeding (idealized filesystem).
* Python string operations used by the source (`lower`, `split`,
  `in`, `endswith`, `int()`) are re-implemented structurally over the
  character list of the string so that concrete runs reduce in the kernel.
* Pure Python ints become `Int`; page lists become `List Int` so that
  out-of-range and negative page numbers are representable.
-/

namespace PdfProc

/-- Python exceptions relevant to the core.  `pdfOperationErrorFrom` is a
`PDFOperationError` raised with `raise ... from e`, carrying the chained
cause; `pdfOperationError` is one raised without a cause. -/
inductive PyExc where
  | pdfValidationError (msg : String)
  | pdfOperationError (msg : String)
  | pdfOperationErrorFrom (msg : String) (cause : PyExc)
  | valueError (msg : String)
  | otherError (msg : String)
deriving DecidableEq

/-- Decidable equality of outcomes, so that concrete runs of the embedded
code can be checked by `decide`. -/
instance {ε α : Type _} [DecidableEq ε] [DecidableEq α] : DecidableEq (Except ε α) :=
  fun x y =>
    match x, y with
    | .ok a, .ok b =>
        if h : a = b then .isTrue (by rw [h]) else .isFalse (by intro hc; cases hc; exact h rfl)
    | .ok _, .error _ => .isFalse (by intro hc; cases hc)
    | .error _, .ok _ => .isFalse (by intro hc; cases hc)
    | .error a, .error b =>
        if h : a = b then .isTrue (by rw [h]) else .isFalse (by intro hc; cases hc; exact h rfl)

/-- `str(e)`: the message of an exception. -/
def PyExc.message : PyExc → String
  | .pdfValidationError m => m
  | .pdfOperationError m => m
  | .pdfOperationErrorFrom m _ => m
  | .valueError m => m
  | .otherError m => m

/-- `isinstance(e, (PDFValidationError, PDFOperationError))`: the two typed
errors of the core, which the wrapping points pass through unchanged. -/
def isCustomExc : PyExc → Bool
  | .pdfValidationError _ => true
  | .pdfOperationError _ => true
  | .pdfOperationErrorFrom _ _ => true
  | _ => false

/-- Does the computation end in a `PDFValidationError`? -/
def isValidationError : Except PyExc α → Bool
  | .error (.pdfValidationError _) => true
  | _ => false

/-- Does the computation end in a built-in `ValueError` (not the typed
`PDFValidationError`)? -/
def isValueError : Except PyExc α → Bool
  | .error (.valueError _) => true
  | _ => false

/-- `with_error_handling` (src/pdf_processor.py lines 63-118), applied to the
outcome of the wrapped method body: exceptions already typed as
`PDFValidationError`/`PDFOperationError` are re-raised unchanged; any other
exception is wrapped once as `PDFOperationError(f"{name} failed: {e}") from e`.
Logging and timing have no effect on the result and are not modelled. -/
def withErrorHandling (methodName : String) : Except PyExc α → Except PyExc α
  | .ok a => .ok a
  | .error e =>
      if isCustomExc e then .error e
      else .error (.pdfOperationErrorFrom (methodName ++ " failed: " ++ e.message) e)

/-! ## Python string primitives, re-implemented structurally -/

/-- ASCII lower-casing of one character (`str.lower` on the alphabets the
source messages use). -/
def lowerChar (c : Char) : Char :=
  if 'A' ≤ c ∧ c ≤ 'Z' then Char.ofNat (c.toNat + 32) else c

/-- `s.lower()`. -/
def pyLower (s : String) : String := ⟨s.data.map lowerChar⟩

/-- Is `pat` a contiguous prefix of `l`? -/
def startsSeq : List Char → List Char → Bool
  | [], _ => true
  | _ :: _, [] => false
  | p :: ps, c :: cs => p = c && startsSeq ps cs

/-- Is `pat` a contiguous subsequence of `l`?  Models the Python `in`
operator on strings. -/
def containsSeq (pat : List Char) : List Char → Bool
  | [] => pat.isEmpty
  | l@(_ :: cs) => startsSeq pat l || containsSeq pat cs

/-- `"needle" in s` for strings. -/
def pyIn (needle s : String) : Bool := containsSeq needle.data s.data

/-- `path.suffix.lower() == ".pdf"`: the lower-cased path ends in `".pdf"`.
(The source checks the `pathlib` suffix of the final component; for the plain
file names the core manipulates this is the same test.) -/
def hasPdfExt (path : String) : Bool :=
  startsSeq ".pdf".data.reverse (pyLower path).data.reverse

/-- `s.split(sep)` for a one-character separator (the source only splits on
`","` and `"-"`).  Like Python, the empty string yields `[""]`. -/
def splitChar (sep : Char) (s : String) : List String :=
  go s.data []
where
  go : List Char → List Char → List String
    | [], acc => [⟨acc.reverse⟩]
    | c :: cs, acc => if c = sep then ⟨acc.reverse⟩ :: go cs [] else go cs (c :: acc)

/-- Whitespace stripping at both ends, as `int()` does before parsing. -/
def stripWS (l : List Char) : List Char :=
  ((l.dropWhile Char.isWhitespace).reverse.dropWhile Char.isWhitespace).reverse

/-- Value of a digit string. -/
def digitsVal (l : List Char) : Nat :=
  l.foldl (fun acc c => 10 * acc + (c.toNat - '0'.toNat)) 0

/-- `int(s)`: optional surrounding whitespace, optional sign, at least one
digit; anything else raises the built-in `ValueError`. -/
def pyInt (s : String) : Except PyExc Int :=
  let t := stripWS s.data
  match t with
  | '-' :: rest =>
      if rest ≠ [] ∧ rest.all Char.isDigit then .ok (-(digitsVal rest : Int))
      else .error (.valueError ("invalid literal for int() with base 10: " ++ s))
  | '+' :: rest =>
      if rest ≠ [] ∧ rest.all Char.isDigit then .ok (digitsVal rest : Int)
      else .error (.valueError ("invalid literal for int() with base 10: " ++ s))
  | _ =>
      if t ≠ [] ∧ t.all Char.isDigit then .ok (digitsVal t : Int)
      else .error (.valueError ("invalid literal for int() with base 10: " ++ s))

/-! ## Data model: pages, PDF documents, files, filesystem -/

/-- One PDF page: its content (abstracted to an identifier) and its
`/Rotate` attribute. -/
structure Page where
  content : Nat
  rotation : Int := 0
deriving DecidableEq

instance : Inhabited Page := ⟨⟨0, 0⟩⟩

/-- `page.rotate(angle)` in pypdf adds to `/Rotate` modulo 360. -/
def rotatePage (pg : Page) (angle : Int) : Page :=
  { pg with rotation := (pg.rotation + angle) % 360 }

/-- A parseable PDF document: its pages, whether its metadata marks PDF/A
conformance, and whether it is encrypted. -/
structure PdfData where
  pages : List Page
  pdfa : Bool := false
  encrypted : Bool := false
deriving DecidableEq

/-- File content: either a PDF that `PdfReader` parses, or bytes it rejects
with a `PdfReadError`. -/
inductive FileContent where
  | pdf (d : PdfData)
  | invalid
deriving DecidableEq

/-- A file on disk: byte size plus content. -/
structure FSFile where
  size : Nat
  content : FileContent
deriving DecidableEq

/-- The filesystem: an association list from paths to files (later bindings
shadow earlier ones). -/
abbrev FS := List (String × FSFile)

/-- Look a path up on the filesystem. -/
def FS.find : FS → String → Option FSFile
  | [], _ => none
  | (k, v) :: rest, p => if k = p then some v else FS.find rest p

/-- Write (create or overwrite) a file. -/
def FS.write (fs : FS) (p : String) (f : FSFile) : FS := (p, f) :: fs

/-- `os.remove`: delete every binding of a path. -/
def FS.remove (fs : FS) (p : String) : FS := fs.filter (fun kv => kv.1 ≠ p)

/-- Remove a list of paths in order. -/
def FS.removeAll (fs : FS) (ps : List String) : FS := ps.foldl FS.remove fs

/-- The `PDFProcessor` construction state (src/pdf_processor.py line 126). -/
structure PDFProcessor where
  max_file_size_mb : Nat := 100
deriving DecidableEq

/-! ## Validator -/

/-- `_validate_file` (lines 252-259): the path must exist and the size must
not exceed the megabyte ceiling.  Returns the file found. -/
def _validate_file (p : PDFProcessor) (fs : FS) (file_path : String) :
    Except PyExc FSFile :=
  match fs.find file_path with
  | none => .error (.pdfValidationError ("File not found: " ++ file_path))
  | some f =>
      if f.size > p.max_file_size_mb * 1024 * 1024 then
        .error (.pdfValidationError ("File too large: " ++ file_path ++ " exceeds "
          ++ toString p.max_file_size_mb ++ "MB"))
      else .ok f

/-- An event of actual file input/output performed by a transform. -/
inductive IOEvent where
  | readFile (path : String)
  | writeFile (path : String)
deriving DecidableEq

/-- Is the event a write? -/
def IOEvent.isWrite : IOEvent → Bool
  | .writeFile _ => true
  | .readFile _ => false

/-- `_validate_pdf` (lines 276-290), instrumented with the file reads it
performs: after `_validate_file` and the extension check it opens the file
and parses it with `PdfReader` (one read of the input); an unparseable file
raises `PDFValidationError("Invalid PDF file: ...")`.  The shallow embedding
returns the parsed document instead of the path. -/
def _validate_pdf_traced (p : PDFProcessor) (fs : FS) (file_path : String) :
    Except PyExc PdfData × List IOEvent :=
  match _validate_file p fs file_path with
  | .error e => (.error e, [])
  | .ok f =>
      if hasPdfExt file_path then
        match f.content with
        | .pdf d => (.ok d, [.readFile file_path])
        | .invalid =>
            (.error (.pdfValidationError ("Invalid PDF file: " ++ file_path)),
             [.readFile file_path])
      else (.error (.pdfValidationError ("Not a PDF file: " ++ file_path)), [])

/-- `_validate_pdf`, result only. -/
def _validate_pdf (p : PDFProcessor) (fs : FS) (file_path : String) :
    Except PyExc PdfData :=
  (_validate_pdf_traced p fs file_path).1

/-! ## Transform library -/

/-- The portion of `merge_pdfs` that validates each listed file in order and
concatenates their pages (`PdfMerger.append` per file).  The first invalid
file raises its validation error before any later file is touched. -/
def appendAll (p : PDFProcessor) (fs : FS) : List String → Except PyExc (List Page)
  | [] => .ok []
  | path :: rest =>
      match _validate_pdf p fs path with
      | .error e => .error e
      | .ok d =>
          match appendAll p fs rest with
          | .error e => .error e
          | .ok ps => .ok (d.pages ++ ps)

/-- Body of `merge_pdfs` (lines 292-310): empty list raises
`PDFValidationError`; otherwise every file is validated and appended in list
order and the merged document is written to `output_path`. -/
def merge_body (p : PDFProcessor) (fs : FS) (pdf_list : List String)
    (output_path : String) : Except PyExc (FS × String) :=
  if pdf_list = [] then .error (.pdfValidationError "No PDF files provided")
  else
    match appendAll p fs pdf_list with
    | .error e => .error e
    | .ok pages =>
        .ok (fs.write output_path ⟨0, .pdf ⟨pages, false, false⟩⟩,
             "PDFs merged successfully: " ++ output_path)

/-- `merge_pdfs`, with its `@with_error_handling` decorator. -/
def merge_pdfs (p : PDFProcessor) (fs : FS) (pdf_list : List String)
    (output_path : String) : Except PyExc (FS × String) :=
  withErrorHandling "merge_pdfs" (merge_body p fs pdf_list output_path)

/-- `sorted(set(pages))`: distinct requested values in ascending order.
`List.dedup` models `set(...)` and `List.insertionSort` models `sorted`. -/
def pySortedSet (l : List Int) : List Int :=
  List.insertionSort (· ≤ ·) l.dedup

/-- The page-selection loop of `extract_pages`: each requested page number
must lie in `1..len(pages)`, otherwise
`PDFValidationError(f"Invalid page number: {k}")`; in-range numbers select
the corresponding page. -/
def pickPages (ps : List Page) : List Int → Except PyExc (List Page)
  | [] => .ok []
  | k :: rest =>
      if k < 1 ∨ (ps.length : Int) < k then
        .error (.pdfValidationError ("Invalid page number: " ++ toString k))
      else
        match pickPages ps rest with
        | .error e => .error e
        | .ok more => .ok (ps.getD (k.toNat - 1) default :: more)

/-- Body of `extract_pages` (lines 327-343): validate, reject an empty page
list, then walk `sorted(set(pages))` validating bounds and collecting
pages, and write the result. -/
def extract_body (p : PDFProcessor) (fs : FS) (input_path output_path : String)
    (pages : List Int) : Except PyExc (FS × String) :=
  match _validate_pdf p fs input_path with
  | .error e => .error e
  | .ok d =>
      if pages = [] then .error (.pdfValidationError "No pages specified")
      else
        match pickPages d.pages (pySortedSet pages) with
        | .error e => .error e
        | .ok out =>
            .ok (fs.write output_path ⟨0, .pdf ⟨out, false, false⟩⟩,
                 "Pages extracted successfully: " ++ output_path)

/-- `extract_pages`, with its decorator. -/
def extract_pages (p : PDFProcessor) (fs : FS) (input_path output_path : String)
    (pages : List Int) : Except PyExc (FS × String) :=
  withErrorHandling "extract_pages" (extract_body p fs input_path output_path pages)

/-- Body of `remove_pages` (lines 345-359): validate the input, then keep
every 1-based page number not in `set(pages_to_remove)`.  Note that the
source performs no range check on `pages_to_remove`. -/
def remove_body (p : PDFProcessor) (fs : FS) (input_path output_path : String)
    (pages_to_remove : List Int) : Except PyExc (FS × String) :=
  match _validate_pdf p fs input_path with
  | .error e => .error e
  | .ok d =>
      let kept := (List.range d.pages.length).filterMap (fun i =>
        if (Int.ofNat i + 1) ∈ pages_to_remove then none
        else some (d.pages.getD i default))
      .ok (fs.write output_path ⟨0, .pdf ⟨kept, false, false⟩⟩,
           "Pages removed successfully: " ++ output_path)

/-- `remove_pages`, with its decorator. -/
def remove_pages (p : PDFProcessor) (fs : FS) (input_path output_path : String)
    (pages_to_remove : List Int) : Except PyExc (FS × String) :=
  withErrorHandling "remove_pages" (remove_body p fs input_path output_path pages_to_remove)

/-- Body of `rotate_pdf` (lines 668-687): validate, restrict the angle to
{90, 180, 270}, rotate the listed pages (all pages when `pages` is `None`
or empty, mirroring Python truthiness), and write the result. -/
def rotate_body (p : PDFProcessor) (fs : FS) (input_path output_path : String)
    (rotation : Int) (pages : Option (List Int)) : Except PyExc (FS × String) :=
  match _validate_pdf p fs input_path with
  | .error e => .error e
  | .ok d =>
      if rotation = 90 ∨ rotation = 180 ∨ rotation = 270 then
        let n := d.pages.length
        let pagesSet : List Int :=
          match pages with
          | some ps => if ps ≠ [] then ps else (List.range n).map (fun i => (i : Int) + 1)
          | none => (List.range n).map (fun i => (i : Int) + 1)
        let newPages := d.pages.enum.map (fun iv =>
          if ((iv.1 : Int) + 1) ∈ pagesSet then rotatePage iv.2 rotation else iv.2)
        .ok (fs.write output_path ⟨0, .pdf ⟨newPages, false, false⟩⟩,
             "PDF rotated successfully: " ++ output_path)
      else .error (.pdfValidationError "Rotation angle must be 90, 180, or 270 degrees")

/-- `rotate_pdf`, with its decorator. -/
def rotate_pdf (p : PDFProcessor) (fs : FS) (input_path output_path : String)
    (rotation : Int) (pages : Option (List Int)) : Except PyExc (FS × String) :=
  withErrorHandling "rotate_pdf" (rotate_body p fs input_path output_path rotation pages)

/-- Body of `validate_pdf_a` (lines 811-819): a read-only check whose result
message reports PDF/A conformance; neither message contains a success
marker. -/
def validate_pdf_a_body (p : PDFProcessor) (fs : FS) (input_path : String) :
    Except PyExc (FS × String) :=
  match _validate_pdf p fs input_path with
  | .error e => .error e
  | .ok d =>
      if d.pdfa then .ok (fs, "PDF appears to be PDF/A compliant (basic check)")
      else .ok (fs, "PDF does not appear to be PDF/A compliant")

/-- `validate_pdf_a`, with its decorator. -/
def validate_pdf_a (p : PDFProcessor) (fs : FS) (input_path : String) :
    Except PyExc (FS × String) :=
  withErrorHandling "validate_pdf_a" (validate_pdf_a_body p fs input_path)

/-- Body of `protect_pdf` (lines 736-761), instrumented with its file
input/output events: `_validate_pdf` reads and parses the input, then the
password policy is checked (≥8 characters, at least one digit, at least one
non-alphanumeric character), then the input is read again by `PdfReader`,
encrypted, and written to `output_path`. -/
def protect_body_traced (p : PDFProcessor) (fs : FS)
    (input_path output_path user_password : String) :
    Except PyExc (FS × String) × List IOEvent :=
  match _validate_pdf_traced p fs input_path with
  | (.error e, ev) => (.error e, ev)
  | (.ok d, ev) =>
      if user_password.length < 8 then
        (.error (.pdfValidationError "Password is too weak: must be at least 8 characters"), ev)
      else
        let has_digit := user_password.data.any Char.isDigit
        let has_special := user_password.data.any (fun c => !c.isAlphanum)
        if has_digit && has_special then
          (.ok (fs.write output_path ⟨0, .pdf ⟨d.pages, false, true⟩⟩,
                "PDF protected: " ++ output_path),
           ev ++ [.readFile input_path, .writeFile output_path])
        else
          (.error (.pdfValidationError
            "Password is too weak: must contain at least one digit and one special character"), ev)

set_option linter.unusedVariables false in
/-- `protect_pdf`, with its decorator; also returns the input/output trace.
The optional owner password does not influence the modelled outcome. -/
def protect_pdf (p : PDFProcessor) (fs : FS)
    (input_path output_path user_password : String) (owner_password : Option String) :
    Except PyExc (FS × String) × List IOEvent :=
  let r := protect_body_traced p fs input_path output_path user_password
  (withErrorHandling "protect_pdf" r.1, r.2)

/-! ## Command dispatcher -/

/-- The registry `_get_command_map` builds (lines 133-143): every public
callable attribute of `PDFProcessor` except `process_command` and
`validate_input_files`.  These are exactly the public methods the class
defines, listed here in source order. -/
def commandNames : List String :=
  ["merge_pdfs", "split_pdf", "extract_pages", "remove_pages", "organize_pdf",
   "edit_pdf_add_text", "fill_pdf_forms", "annotate_pdf", "redact_pdf",
   "compare_pdfs", "ocr_pdf_images", "repair_pdf", "sign_pdf", "extract_images",
   "extract_text", "rotate_pdf", "compress_pdf", "watermark_pdf", "protect_pdf",
   "unlock_pdf", "add_page_numbers", "validate_pdf_a", "convert_to_pdf_a",
   "word_to_pdf", "powerpoint_to_pdf", "excel_to_pdf", "html_to_pdf",
   "convert_to_pdf", "pdf_to_powerpoint", "execute_workflow", "bulk_process",
   "compress_image", "resize_image", "crop_image", "convert_image_format",
   "unsupported_feature", "ipynb_to_pdf", "ipynb_to_docx", "py_to_ipynb",
   "py_to_pdf", "ipynb_to_py", "py_to_docx"]

/-- `sorted(command_map.keys())` in the unknown-command message. -/
def sortedCommandNames : List String :=
  List.insertionSort (· ≤ ·) commandNames

/-- The `", ".join(...)` of the sorted registry, as interpolated into the
unknown-command error. -/
def availableCommands : String :=
  String.intercalate ", " sortedCommandNames

/-- The input-validation loop of `process_command`: `_validate_file` on each
input path, aborting at the first failure. -/
def validateAll (p : PDFProcessor) (fs : FS) : List String → Except PyExc Unit
  | [] => .ok ()
  | path :: rest =>
      match _validate_file p fs path with
      | .error e => .error e
      | .ok _ => validateAll p fs rest

/-- The transform invocation `process_command` resolves to: `merge_pdfs`
receives the whole input list, every other command only the first input. -/
inductive ResolvedCall where
  | mergeCall (inputs : List String) (output : String)
  | singleCall (input : String) (output : String) (method : String)
deriving DecidableEq

/-- `process_command` (lines 145-232), modelled up to command resolution:
an unknown command raises `PDFValidationError` listing the sorted registry;
a known command first validates every input file and then resolves to the
invocation of the mapped method (`merge_pdfs` gets `input_paths`, any other
command `input_paths[0]`, an `IndexError` when the list is empty).  The
`except` clause re-raises the two typed errors unchanged and wraps anything
else as `PDFOperationError(f"Command {...} failed: {e}") from e`; the
diagnostic logging it performs has no effect on the outcome. -/
def process_command (p : PDFProcessor) (fs : FS) (command : String)
    (input_paths : List String) (output_path : String) : Except PyExc ResolvedCall :=
  let body : Except PyExc ResolvedCall :=
    if command ∈ commandNames then
      match validateAll p fs input_paths with
      | .error e => .error e
      | .ok _ =>
          if command = "merge_pdfs" then .ok (.mergeCall input_paths output_path)
          else
            match input_paths with
            | [] => .error (.otherError "IndexError: list index out of range")
            | i :: _ => .ok (.singleCall i output_path command)
    else
      .error (.pdfValidationError
        ("Unknown command: " ++ command ++ ". Available commands: " ++ availableCommands))
  match body with
  | .ok r => .ok r
  | .error e =>
      if isCustomExc e then .error e
      else .error (.pdfOperationErrorFrom
        ("Command '" ++ command ++ "' failed: " ++ e.message) e)

/-! ## Workflow executor -/

/-- The keyword arguments a workflow step or a dispatched method receives.
`none` models an absent key. -/
structure StepArgs where
  input_path : Option String := none
  output_path : Option String := none
  rotation : Option Int := none
  pages : Option (List Int) := none
  user_password : Option String := none
deriving DecidableEq

/-- One workflow operation: `{"method": ..., "args": {...}}`. -/
structure WorkflowOp where
  method : String
  args : StepArgs
deriving DecidableEq

/-- The name of the `k`-th generated temporary output,
`f"temp_{uuid.uuid4()}.pdf"`; the uuid is modelled by the generation
counter, which preserves the freshness the source relies on. -/
def tempName (k : Nat) : String := "temp_" ++ toString k ++ ".pdf"

/-- The success-marker check of `execute_workflow` (lines 1147):
`"success" in result.lower() or "successfully" in result.lower()`
(the source tests the negation of both). -/
def hasSuccessMarker (msg : String) : Bool :=
  pyIn "success" (pyLower msg) || pyIn "successfully" (pyLower msg)

/-- A method invocation as `execute_workflow` performs it:
`getattr(self, name)(**args)`.  The semantics of the bound method is a
parameter of the embedding; `methodDispatch` below instantiates it with the
modelled transforms. -/
abbrev RunMethod := String → FS → StepArgs → Except PyExc (FS × String)

/-- Per-step argument preparation of `execute_workflow` (lines 1136-1144):
the step inherits the previous output as `input_path` unless it supplies
its own (the first step has no previous output), and a temporary
`output_path` is generated and recorded when none is given.  Returns the
effective arguments, the temporary names generated (zero or one), and the
next value of the generation counter. -/
def stepPrep (cur : Option String) (k : Nat) (a : StepArgs) :
    StepArgs × List String × Nat :=
  let a₁ :=
    match cur with
    | some c => if a.input_path = none then { a with input_path := some c } else a
    | none => a
  match a₁.output_path with
  | some _ => (a₁, [], k)
  | none => ({ a₁ with output_path := some (tempName k) }, [tempName k], k + 1)

/-- The step loop of `execute_workflow` (lines 1132-1152), instrumented: it
returns the outcome, the filesystem after the executed steps (before
cleanup), the temporary output names this suffix of the loop generated, and
the result messages of the steps that ran.  Each step runs with the
prepared arguments and the loop aborts with
`PDFOperationError(f"Workflow step failed: {result}")` when the result
message carries no success marker; the output path of the step becomes the
next current input. -/
def workflowLoop (run : RunMethod) :
    List WorkflowOp → Option String → Nat → FS →
    Except PyExc String × FS × List String × List String
  | [], cur, _, fs =>
      (.ok ("Workflow completed successfully: final output " ++ (cur.getD "None")),
       fs, [], [])
  | op :: rest, cur, k, fs =>
      let prep := stepPrep cur k op.args
      match run op.method fs prep.1 with
      | .error e => (.error e, fs, prep.2.1, [])
      | .ok (fs', msg) =>
          if hasSuccessMarker msg then
            let r := workflowLoop run rest prep.1.output_path prep.2.2 fs'
            (r.1, r.2.1, prep.2.1 ++ r.2.2.1, msg :: r.2.2.2)
          else
            (.error (.pdfOperationError ("Workflow step failed: " ++ msg)),
             fs', prep.2.1, [msg])

/-- `execute_workflow` (lines 1122-1160), with its decorator and the
`finally` cleanup: an empty operations list raises `PDFValidationError`
before the loop; otherwise the loop runs and, on every exit path, each
generated temporary file is removed from the filesystem.  Returns the
outcome, the final filesystem, the generated temporary names, and the step
messages observed. -/
def execute_workflow (run : RunMethod) (fs : FS) (operations : List WorkflowOp) :
    Except PyExc String × FS × List String × List String :=
  if operations = [] then
    (withErrorHandling "execute_workflow"
      (.error (.pdfValidationError "Operations list cannot be empty")), fs, [], [])
  else
    let r := workflowLoop run operations none 0 fs
    (withErrorHandling "execute_workflow" r.1, r.2.1.removeAll r.2.2.1, r.2.2.1, r.2.2.2)

/-! ## Bulk processor -/

/-- The last path component, `os.path.basename`. -/
def basename (s : String) : String :=
  (splitChar '/' s).getLastD s

/-- The per-item output name `bulk_process` derives (lines 1176-1180). -/
def bulkOutName (method_name output_dir file : String) (i : Nat) : String :=
  if method_name = "compress_pdf" then
    output_dir ++ "/compressed_" ++ toString i ++ ".pdf"
  else output_dir ++ "/" ++ basename file ++ "_processed.pdf"

/-- The per-file loop of `bulk_process`: each file is processed with the
bound method; a raised exception propagates immediately (the source has no
per-item `try`), otherwise the result messages are collected in order. -/
def bulkLoop (method_name output_dir : String)
    (run : FS → String → String → Except PyExc (FS × String)) :
    FS → List String → Nat → Except PyExc (FS × List String)
  | fs, [], _ => .ok (fs, [])
  | fs, file :: rest, i =>
      match run fs file (bulkOutName method_name output_dir file i) with
      | .error e => .error e
      | .ok (fs', msg) =>
          match bulkLoop method_name output_dir run fs' rest (i + 1) with
          | .error e => .error e
          | .ok (fs'', msgs) => .ok (fs'', msg :: msgs)

/-- `bulk_process` (lines 1162-1184), with its decorator.  `run` models the
bound method `getattr(self, method_name)` with the shared keyword arguments
applied.  An empty list raises `PDFValidationError`; `merge_pdfs` is
special-cased into a single merge; otherwise the loop processes each file
and the aggregate message is returned only when every item succeeded. -/
def bulk_process (p : PDFProcessor) (fs : FS) (method_name : String)
    (file_list : List String) (output_dir : String)
    (run : FS → String → String → Except PyExc (FS × String)) :
    Except PyExc (FS × String) :=
  withErrorHandling "bulk_process"
    (if file_list = [] then .error (.pdfValidationError "File list cannot be empty")
     else if method_name = "merge_pdfs" then
       merge_pdfs p fs file_list (output_dir ++ "/bulk_merged.pdf")
     else
       match bulkLoop method_name output_dir run fs file_list 0 with
       | .error e => .error e
       | .ok (fs', msgs) =>
           .ok (fs', "Bulk processed " ++ toString file_list.length ++ " files: "
                ++ toString msgs))

/-- `getattr(self, name)(**args)` for the transforms modelled in this file:
missing required keyword arguments raise a `TypeError` inside the decorated
method, an unknown attribute raises `AttributeError` at the call site. -/
def methodDispatch (p : PDFProcessor) : RunMethod := fun name fs args =>
  match name with
  | "rotate_pdf" =>
      match args.input_path, args.output_path, args.rotation with
      | some i, some o, some r => rotate_pdf p fs i o r args.pages
      | _, _, _ =>
          withErrorHandling "rotate_pdf"
            (.error (.otherError "TypeError: missing required argument"))
  | "validate_pdf_a" =>
      match args.input_path with
      | some i => validate_pdf_a p fs i
      | none =>
          withErrorHandling "validate_pdf_a"
            (.error (.otherError "TypeError: missing required argument"))
  | "extract_pages" =>
      match args.input_path, args.output_path, args.pages with
      | some i, some o, some ps => extract_pages p fs i o ps
      | _, _, _ =>
          withErrorHandling "extract_pages"
            (.error (.otherError "TypeError: missing required argument"))
  | "remove_pages" =>
      match args.input_path, args.output_path, args.pages with
      | some i, some o, some ps => remove_pages p fs i o ps
      | _, _, _ =>
          withErrorHandling "remove_pages"
            (.error (.otherError "TypeError: missing required argument"))
  | "protect_pdf" =>
      match args.input_path, args.output_path, args.user_password with
      | some i, some o, some pw => (protect_pdf p fs i o pw none).1
      | _, _, _ =>
          withErrorHandling "protect_pdf"
            (.error (.otherError "TypeError: missing required argument"))
  | _ => .error (.otherError ("AttributeError: " ++ name))

/-! ## Page-range parser (src/pdf_tool.py lines 193-206) -/

/-- `range(a, b)` over Python ints. -/
def pyRange (a b : Int) : List Int :=
  if a < b then (List.range (b - a).toNat).map (fun i => a + (i : Int)) else []

/-- `int(tok) if tok else dflt`: the defaulted endpoint of a dash range. -/
def defaultedInt (dflt : Int) (tok : String) : Except PyExc Int :=
  if tok = "" then .ok dflt else pyInt tok

/-- One comma-separated token of a page-range specification: a dash token
`start-end` (empty start defaults to 1, empty end to `total_pages`) expands
to the inclusive range, any other token is a single `int(...)` literal.  A
token with two or more dashes fails the tuple unpacking with the built-in
`ValueError: too many values to unpack`. -/
def parsePart (total_pages : Nat) (part : String) : Except PyExc (List Int) :=
  if part.data.contains '-' then
    match splitChar '-' part with
    | [s, e] =>
        match defaultedInt 1 s with
        | .error err => .error err
        | .ok a =>
            match defaultedInt (total_pages : Int) e with
            | .error err => .error err
            | .ok b => .ok (pyRange a (b + 1))
    | _ => .error (.valueError "too many values to unpack (expected 2)")
  else
    match pyInt part with
    | .error err => .error err
    | .ok v => .ok [v]

/-- The token loop of `parse_page_ranges`: tokens are parsed left to right,
the first bad token raising its error. -/
def parseParts (total_pages : Nat) : List String → Except PyExc (List (List Int))
  | [] => .ok []
  | t :: ts =>
      match parsePart total_pages t with
      | .error e => .error e
      | .ok l =>
          match parseParts total_pages ts with
          | .error e => .error e
          | .ok ls => .ok (l :: ls)

/-- `parse_page_ranges` (src/pdf_tool.py lines 193-206): `"all"` (case
insensitive) yields every page; otherwise the comma-separated tokens are
expanded into a set of page numbers which is returned sorted. -/
def parse_page_ranges (range_str : String) (total_pages : Nat) :
    Except PyExc (List Int) :=
  if pyLower range_str = "all" then
    .ok ((List.range total_pages).map (fun i => (i : Int) + 1))
  else
    match parseParts total_pages (splitChar ',' range_str) with
    | .error e => .error e
    | .ok lists => .ok (pySortedSet lists.flatten)

/-! ## Helper lemmas -/

/-- The wrapper is the identity on successful outcomes. -/
theorem wrap_ok_iff (n : String) (r : Except PyExc α) (a : α) :
    withErrorHandling n r = .ok a ↔ r = .ok a := by
  cases r with
  | ok b => simp [withErrorHandling]
  | error e =>
      simp only [withErrorHandling]
      constructor
      · intro h
        by_cases hc : isCustomExc e = true <;> simp [hc] at h
      · intro h
        cases h

/-- The wrapper passes the two typed errors through unchanged. -/
theorem wrap_custom (n : String) (e : PyExc) (h : isCustomExc e = true) :
    withErrorHandling n (Except.error e : Except PyExc α) = .error e := by
  simp [withErrorHandling, h]

/-- Every error `_validate_file` raises is a `PDFValidationError`. -/
theorem validate_file_error_custom (p : PDFProcessor) (fs : FS) (path : String)
    (e : PyExc) (h : _validate_file p fs path = .error e) : isCustomExc e = true := by
  unfold _validate_file at h
  split at h
  · cases h; rfl
  · split at h
    · cases h; rfl
    · cases h

/-- Every error `_validate_pdf` raises is a `PDFValidationError`. -/
theorem validate_pdf_error_custom (p : PDFProcessor) (fs : FS) (path : String)
    (e : PyExc) (h : _validate_pdf p fs path = .error e) : isCustomExc e = true := by
  unfold _validate_pdf _validate_pdf_traced at h
  split at h
  · rename_i e' hv
    simp only at h
    cases h
    exact validate_file_error_custom p fs path _ hv
  · split at h
    · split at h
      · simp only at h; cases h
      · simp only at h; cases h; rfl
    · simp only at h; cases h; rfl

/-- `_validate_pdf` succeeds, returning the parsed document, on an existing,
small-enough file with the `.pdf` extension and parseable content. -/
theorem validate_pdf_ok (p : PDFProcessor) (fs : FS) (path : String)
    (s : Nat) (d : PdfData)
    (hfind : fs.find path = some ⟨s, .pdf d⟩)
    (hsize : s ≤ p.max_file_size_mb * 1024 * 1024)
    (hext : hasPdfExt path = true) :
    _validate_pdf p fs path = .ok d := by
  have hns : ¬ (s > p.max_file_size_mb * 1024 * 1024) := Nat.not_lt.mpr hsize
  unfold _validate_pdf _validate_pdf_traced _validate_file
  rw [hfind]
  simp [hns, hext]

/-- The events `_validate_pdf_traced` records are reads. -/
theorem validate_traced_reads (p : PDFProcessor) (fs : FS) (path : String) :
    ∀ ev ∈ (_validate_pdf_traced p fs path).2, ev.isWrite = false := by
  unfold _validate_pdf_traced
  split
  · simp
  · split
    · split <;> simp [IOEvent.isWrite]
    · simp

/-- Looking up a freshly written path yields the written file. -/
theorem find_write_self (fs : FS) (p : String) (f : FSFile) :
    (fs.write p f).find p = some f := by
  simp [FS.write, FS.find]

/-- After `os.remove p` the path `p` is gone. -/
theorem find_remove_self (fs : FS) (p : String) : (fs.remove p).find p = none := by
  induction fs with
  | nil => rfl
  | cons kv rest ih =>
      by_cases h : kv.1 = p
      · simpa [FS.remove, List.filter_cons, h] using ih
      · simpa [FS.remove, List.filter_cons, h, FS.find] using ih

/-- Removing another path cannot create a binding. -/
theorem find_remove_none (fs : FS) (p q : String) (h : fs.find p = none) :
    (fs.remove q).find p = none := by
  induction fs with
  | nil => rfl
  | cons kv rest ih =>
      by_cases hk : kv.1 = p
      · simp [FS.find, hk] at h
      · have h' : FS.find rest p = none := by simpa [FS.find, hk] using h
        by_cases hq : kv.1 = q
        · simpa [FS.remove, List.filter_cons, hq] using ih h'
        · simpa [FS.remove, List.filter_cons, hq, FS.find, hk] using ih h'

/-- A path with no binding stays unbound under `removeAll`. -/
theorem removeAll_preserves_none (ps : List String) (fs : FS) (p : String)
    (h : fs.find p = none) : (fs.removeAll ps).find p = none := by
  induction ps generalizing fs with
  | nil => exact h
  | cons q rest ih => exact ih (fs.remove q) (find_remove_none fs p q h)

/-- Every path in the removed list is unbound after `removeAll`. -/
theorem removeAll_find_none (ps : List String) (fs : FS) (p : String)
    (h : p ∈ ps) : (fs.removeAll ps).find p = none := by
  induction ps generalizing fs with
  | nil => cases h
  | cons q rest ih =>
      rcases List.mem_cons.mp h with rfl | hmem
      · exact removeAll_preserves_none rest (fs.remove p) p (find_remove_self fs p)
      · exact ih (fs.remove q) hmem

/-! ## C1 and C3 -/

/-- C1: every command string outside the closed registry of method names is
rejected by `process_command` with a `PDFValidationError` whose message
enumerates the (sorted) registry; the interpolated list is a permutation of
the registry, so the message enumerates exactly the valid command set. -/
theorem c1_unknown_command_rejected (p : PDFProcessor) (fs : FS) (command : String)
    (input_paths : List String) (output_path : String)
    (h : command ∉ commandNames) :
    process_command p fs command input_paths output_path =
      .error (.pdfValidationError
        ("Unknown command: " ++ command ++ ". Available commands: " ++ availableCommands))
    ∧ sortedCommandNames.Perm commandNames
    ∧ availableCommands = String.intercalate ", " sortedCommandNames := by
  refine ⟨?_, List.perm_insertionSort _ _, rfl⟩
  unfold process_command
  rw [if_neg h]
  rfl

/-- Witness for C1 at the concrete command of the spec example. -/
theorem c1_unknown_command_rejected_witness :
    process_command {} [] "not_a_real_command" [] "out.pdf" =
      .error (.pdfValidationError
        ("Unknown command: " ++ "not_a_real_command" ++ ". Available commands: "
          ++ availableCommands)) :=
  (c1_unknown_command_rejected {} [] "not_a_real_command" [] "out.pdf" (by decide)).1

/-- C3: the error-handling wrapper re-raises `PDFValidationError` and
`PDFOperationError` unchanged, wraps any other exception exactly once as a
`PDFOperationError` carrying the original message with the original
exception chained as cause, and applying the wrapper twice equals applying
it once; successful results pass through untouched. -/
theorem c3_error_wrapping_policy (methodName : String) (e : PyExc) :
    (withErrorHandling methodName (Except.error e : Except PyExc Unit) =
       if isCustomExc e = true then .error e
       else .error (.pdfOperationErrorFrom (methodName ++ " failed: " ++ e.message) e))
    ∧ withErrorHandling methodName
        (withErrorHandling methodName (Except.error e : Except PyExc Unit)) =
        withErrorHandling methodName (Except.error e : Except PyExc Unit)
    ∧ withErrorHandling methodName (Except.ok () : Except PyExc Unit) = .ok () := by
  refine ⟨?_, ?_, rfl⟩ <;> cases e <;> simp [withErrorHandling, isCustomExc, PyExc.message]

/-! ## C2: merge -/

/-- `merge_pdfs` aborts at the first file whose validation fails, with that
file's error, regardless of the later entries. -/
theorem appendAll_fail_fast (p : PDFProcessor) (fs : FS) :
    ∀ (pre : List String) (path : String) (rest : List String) (e : PyExc),
    (∀ q ∈ pre, (_validate_pdf p fs q).isOk = true) →
    _validate_pdf p fs path = .error e →
    appendAll p fs (pre ++ path :: rest) = .error e := by
  intro pre
  induction pre with
  | nil =>
      intro path rest e _ hbad
      simp [appendAll, hbad]
  | cons q pre ih =>
      intro path rest e hok hbad
      have hq := hok q (List.mem_cons_self q pre)
      obtain ⟨dq, hdq⟩ : ∃ d, _validate_pdf p fs q = .ok d := by
        cases hv : _validate_pdf p fs q with
        | ok d => exact ⟨d, rfl⟩
        | error e' => rw [hv] at hq; cases hq
      have hrec := ih path rest e (fun r hr => hok r (List.mem_cons_of_mem q hr)) hbad
      simp [appendAll, hdq, hrec]

/-- C2: merging two valid PDFs produces an output whose page list is the
concatenation of the inputs in list order (hence has `a + b` pages and is
readable back at the output path); the empty input list raises
`PDFValidationError`; and validation failure of the first invalid file in
the list aborts the merge with exactly that error. -/
theorem c2_merge_page_count (p : PDFProcessor) (fs : FS) (a b out : String)
    (sa sb : Nat) (A B : PdfData)
    (ha : fs.find a = some ⟨sa, .pdf A⟩)
    (hsa : sa ≤ p.max_file_size_mb * 1024 * 1024)
    (ha2 : hasPdfExt a = true)
    (hb : fs.find b = some ⟨sb, .pdf B⟩)
    (hsb : sb ≤ p.max_file_size_mb * 1024 * 1024)
    (hb2 : hasPdfExt b = true) :
    (merge_pdfs p fs [a, b] out =
       .ok (fs.write out ⟨0, .pdf ⟨A.pages ++ B.pages, false, false⟩⟩,
            "PDFs merged successfully: " ++ out)
     ∧ (A.pages ++ B.pages).length = A.pages.length + B.pages.length
     ∧ (fs.write out ⟨0, .pdf ⟨A.pages ++ B.pages, false, false⟩⟩).find out =
         some ⟨0, .pdf ⟨A.pages ++ B.pages, false, false⟩⟩)
    ∧ merge_pdfs p fs [] out = .error (.pdfValidationError "No PDF files provided")
    ∧ (∀ (pre : List String) (path : String) (rest : List String) (e : PyExc),
        (∀ q ∈ pre, (_validate_pdf p fs q).isOk = true) →
        _validate_pdf p fs path = .error e →
        merge_pdfs p fs (pre ++ path :: rest) out = .error e) := by
  refine ⟨⟨?_, List.length_append _ _, find_write_self fs out _⟩, rfl, ?_⟩
  · have hva := validate_pdf_ok p fs a sa A ha hsa ha2
    have hvb := validate_pdf_ok p fs b sb B hb hsb hb2
    simp [merge_pdfs, merge_body, appendAll, hva, hvb, withErrorHandling]
  · intro pre path rest e hok hbad
    have happ := appendAll_fail_fast p fs pre path rest e hok hbad
    have hne : pre ++ path :: rest ≠ [] := by simp
    have hcustom := validate_pdf_error_custom p fs path e hbad
    unfold merge_pdfs merge_body
    rw [if_neg hne, happ]
    exact wrap_custom _ e hcustom

/-- Witness for C2 on two concrete one- and two-page documents. -/
theorem c2_merge_page_count_witness :
    merge_pdfs {} [("a.pdf", ⟨1, .pdf ⟨[⟨1, 0⟩], false, false⟩⟩),
                   ("b.pdf", ⟨1, .pdf ⟨[⟨2, 0⟩, ⟨3, 0⟩], false, false⟩⟩)]
      ["a.pdf", "b.pdf"] "m.pdf" =
      .ok (FS.write [("a.pdf", ⟨1, .pdf ⟨[⟨1, 0⟩], false, false⟩⟩),
                     ("b.pdf", ⟨1, .pdf ⟨[⟨2, 0⟩, ⟨3, 0⟩], false, false⟩⟩)]
             "m.pdf" ⟨0, .pdf ⟨[⟨1, 0⟩] ++ [⟨2, 0⟩, ⟨3, 0⟩], false, false⟩⟩,
           "PDFs merged successfully: " ++ "m.pdf") :=
  (c2_merge_page_count {} _ "a.pdf" "b.pdf" "m.pdf" 1 1 ⟨[⟨1, 0⟩], false, false⟩
    ⟨[⟨2, 0⟩, ⟨3, 0⟩], false, false⟩ (by decide) (by decide) (by decide)
    (by decide) (by decide) (by decide)).1.1

/-! ## C7 and C10: extract and remove -/

/-- Membership in `sorted(set(pages))` is membership in `pages`. -/
theorem pySortedSet_mem (l : List Int) (k : Int) :
    k ∈ pySortedSet l ↔ k ∈ l := by
  unfold pySortedSet
  rw [(List.perm_insertionSort _ _).mem_iff, List.mem_dedup]

/-- `sorted(set(pages))` is sorted ascending. -/
theorem pySortedSet_sorted (l : List Int) :
    (pySortedSet l).Sorted (· ≤ ·) :=
  List.sorted_insertionSort _ _

/-- `sorted(set(pages))` has no duplicates. -/
theorem pySortedSet_nodup (l : List Int) : (pySortedSet l).Nodup :=
  (List.perm_insertionSort _ _).nodup_iff.mpr (List.nodup_dedup l)

/-- Two requests with the same underlying set have the same
`sorted(set(...))`. -/
theorem pySortedSet_eq_of_mem_iff (l₁ l₂ : List Int)
    (h : ∀ k, k ∈ l₁ ↔ k ∈ l₂) : pySortedSet l₁ = pySortedSet l₂ := by
  refine List.eq_of_perm_of_sorted ?_ (pySortedSet_sorted l₁) (pySortedSet_sorted l₂)
  refine (List.perm_ext_iff_of_nodup (pySortedSet_nodup l₁) (pySortedSet_nodup l₂)).mpr ?_
  intro a
  rw [pySortedSet_mem, pySortedSet_mem]
  exact h a

/-- When every requested page is in range, the selection loop of
`extract_pages` succeeds and maps each page number to its page. -/
theorem pickPages_ok (ps : List Page) :
    ∀ l : List Int, (∀ k ∈ l, 1 ≤ k ∧ k ≤ (ps.length : Int)) →
    pickPages ps l = .ok (l.map (fun k => ps.getD (k.toNat - 1) default)) := by
  intro l
  induction l with
  | nil => intro _; rfl
  | cons k rest ih =>
      intro h
      have hk := h k (List.mem_cons_self k rest)
      have hcond : ¬(k < 1 ∨ (ps.length : Int) < k) := by omega
      have hrec := ih (fun q hq => h q (List.mem_cons_of_mem k hq))
      simp [pickPages, hcond, hrec]

/-- An out-of-range member of the request makes the selection loop raise a
`PDFValidationError`. -/
theorem pickPages_err (ps : List Page) :
    ∀ (l : List Int) (k : Int), k ∈ l → (k < 1 ∨ (ps.length : Int) < k) →
    ∃ m, pickPages ps l = .error (.pdfValidationError m) := by
  intro l
  induction l with
  | nil => intro k hk; cases hk
  | cons q rest ih =>
      intro k hk hbad
      by_cases hq : q < 1 ∨ (ps.length : Int) < q
      · exact ⟨"Invalid page number: " ++ toString q, by simp [pickPages, hq]⟩
      · have hkr : k ∈ rest := by
          rcases List.mem_cons.mp hk with rfl | hr
          · exact absurd hbad hq
          · exact hr
        obtain ⟨m, hm⟩ := ih k hkr hbad
        exact ⟨m, by simp [pickPages, hq, hm]⟩

/-- A filter that rejects nothing is a map. -/
theorem filterMap_keep_all (l : List Nat) (rem : List Int) (f : Nat → Page)
    (h : ∀ i ∈ l, ¬((Int.ofNat i + 1) ∈ rem)) :
    l.filterMap (fun i => if (Int.ofNat i + 1) ∈ rem then none else some (f i)) =
      l.map f := by
  induction l with
  | nil => rfl
  | cons x xs ih =>
      have hx := h x (List.mem_cons_self x xs)
      have hrec := ih (fun i hi => h i (List.mem_cons_of_mem x hi))
      rw [List.filterMap_cons, if_neg hx, hrec]
      rfl

/-- Selecting every index of a list in order reproduces the list. -/
theorem map_getD_range (l : List Page) :
    (List.range l.length).map (fun i => l.getD i default) = l := by
  induction l with
  | nil => rfl
  | cons x xs ih =>
      rw [List.length_cons, List.range_succ_eq_map, List.map_cons, List.map_map]
      simp only [Function.comp_def, List.getD_cons_succ, List.getD_cons_zero]
      rw [ih]

/-- C7 (amended): with a validated input of `n` pages, `extract_pages` does
raise `PDFValidationError` whenever the request contains a page number
below 1 or above `n`; `remove_pages`, however, performs no page-number
validation at all — it always succeeds, keeping the pages whose 1-based
number is not listed, and a request consisting only of out-of-range numbers
is silently ignored (the output equals the input page list). -/
theorem c7_pages_validation_amended (p : PDFProcessor) (fs : FS)
    (input output : String) (d : PdfData)
    (hv : _validate_pdf p fs input = .ok d) :
    (∀ (pages : List Int) (k : Int), k ∈ pages →
        (k < 1 ∨ (d.pages.length : Int) < k) →
        isValidationError (extract_pages p fs input output pages) = true)
    ∧ (∀ pages_to_remove : List Int,
        remove_pages p fs input output pages_to_remove =
          .ok (fs.write output ⟨0, .pdf ⟨(List.range d.pages.length).filterMap (fun i =>
                  if (Int.ofNat i + 1) ∈ pages_to_remove then none
                  else some (d.pages.getD i default)), false, false⟩⟩,
               "Pages removed successfully: " ++ output)
        ∧ ((∀ k ∈ pages_to_remove, k < 1 ∨ (d.pages.length : Int) < k) →
            (List.range d.pages.length).filterMap (fun i =>
                if (Int.ofNat i + 1) ∈ pages_to_remove then none
                else some (d.pages.getD i default)) = d.pages)) := by
  constructor
  · intro pages k hk hbad
    have hne : pages ≠ [] := by
      intro hnil
      subst hnil
      cases hk
    have hmem : k ∈ pySortedSet pages := (pySortedSet_mem pages k).mpr hk
    obtain ⟨m, hm⟩ := pickPages_err d.pages (pySortedSet pages) k hmem hbad
    simp [extract_pages, extract_body, hv, hne, hm, withErrorHandling, isCustomExc,
      isValidationError]
  · intro rem
    constructor
    · simp [remove_pages, remove_body, hv, withErrorHandling]
    · intro hall
      have hnone : ∀ i ∈ List.range d.pages.length, ¬((Int.ofNat i + 1) ∈ rem) := by
        intro i hi hmem
        have hb := hall _ hmem
        have hi' := List.mem_range.mp hi
        rw [Int.ofNat_eq_coe] at hb
        omega
      rw [filterMap_keep_all _ rem _ hnone, map_getD_range]

/-- Witness for C7: on a two-page document, requesting page 5 makes
`extract_pages` fail validation while `remove_pages` silently succeeds. -/
theorem c7_pages_validation_amended_witness :
    isValidationError (extract_pages {}
      [("doc.pdf", ⟨10, .pdf ⟨[⟨1, 0⟩, ⟨2, 0⟩], false, false⟩⟩)]
      "doc.pdf" "out.pdf" [5]) = true
    ∧ (List.range ([⟨1, 0⟩, ⟨2, 0⟩] : List Page).length).filterMap (fun i =>
        if (Int.ofNat i + 1) ∈ [(5 : Int)] then none
        else some (([⟨1, 0⟩, ⟨2, 0⟩] : List Page).getD i default)) =
      [⟨1, 0⟩, ⟨2, 0⟩] := by
  have h := c7_pages_validation_amended {}
    [("doc.pdf", ⟨10, .pdf ⟨[⟨1, 0⟩, ⟨2, 0⟩], false, false⟩⟩)]
    "doc.pdf" "out.pdf" ⟨[⟨1, 0⟩, ⟨2, 0⟩], false, false⟩ (by decide)
  exact ⟨h.1 [5] 5 (by decide) (by decide), (h.2 [5]).2 (by decide)⟩

/-- Counterexample to C7 as stated: `remove_pages` on a two-page document
with the out-of-range request `[5]` does not raise a `PDFValidationError`;
it returns success with the pages untouched. -/
theorem c7_remove_pages_no_validation_counterexample :
    remove_pages {} [("doc.pdf", ⟨10, .pdf ⟨[⟨1, 0⟩, ⟨2, 0⟩], false, false⟩⟩)]
      "doc.pdf" "out.pdf" [5] =
      .ok ([("out.pdf", ⟨0, .pdf ⟨[⟨1, 0⟩, ⟨2, 0⟩], false, false⟩⟩),
            ("doc.pdf", ⟨10, .pdf ⟨[⟨1, 0⟩, ⟨2, 0⟩], false, false⟩⟩)],
           "Pages removed successfully: out.pdf")
    ∧ isValidationError (remove_pages {}
        [("doc.pdf", ⟨10, .pdf ⟨[⟨1, 0⟩, ⟨2, 0⟩], false, false⟩⟩)]
        "doc.pdf" "out.pdf" [5]) = false := by
  exact ⟨by decide, by decide⟩

/-- C10: with a validated input and an in-range request, `extract_pages`
returns the pages of `sorted(set(pages))` in that order — each distinct
requested page exactly once, in ascending source order — and the outcome
depends only on the set underlying the request, not on its order or
multiplicity. -/
theorem c10_extract_sorted_dedup (p : PDFProcessor) (fs : FS)
    (input output : String) (d : PdfData) (pages : List Int)
    (hv : _validate_pdf p fs input = .ok d)
    (hne : pages ≠ [])
    (hin : ∀ k ∈ pages, 1 ≤ k ∧ k ≤ (d.pages.length : Int)) :
    extract_pages p fs input output pages =
      .ok (fs.write output ⟨0, .pdf ⟨(pySortedSet pages).map (fun k =>
              d.pages.getD (k.toNat - 1) default), false, false⟩⟩,
           "Pages extracted successfully: " ++ output)
    ∧ (pySortedSet pages).Sorted (· ≤ ·)
    ∧ (pySortedSet pages).Nodup
    ∧ (∀ k, k ∈ pySortedSet pages ↔ k ∈ pages)
    ∧ (∀ pages₂ : List Int, (∀ k, k ∈ pages₂ ↔ k ∈ pages) →
        extract_pages p fs input output pages₂ =
          extract_pages p fs input output pages) := by
  have hbounds : ∀ k ∈ pySortedSet pages, 1 ≤ k ∧ k ≤ (d.pages.length : Int) :=
    fun k hk => hin k ((pySortedSet_mem pages k).mp hk)
  have hpick := pickPages_ok d.pages (pySortedSet pages) hbounds
  refine ⟨?_, pySortedSet_sorted pages, pySortedSet_nodup pages,
    fun k => pySortedSet_mem pages k, ?_⟩
  · simp [extract_pages, extract_body, hv, hne, hpick, withErrorHandling]
  · intro pages₂ hiff
    have hset : pySortedSet pages₂ = pySortedSet pages :=
      pySortedSet_eq_of_mem_iff pages₂ pages (fun k => hiff k)
    have hne₂ : pages₂ ≠ [] := by
      obtain ⟨k, hk⟩ := List.exists_mem_of_ne_nil pages hne
      intro hnil
      subst hnil
      exact absurd ((hiff k).mpr hk) (List.not_mem_nil k)
    simp [extract_pages, extract_body, hv, hne, hne₂, hset]

/-- Witness for C10: the request `[3, 1, 3]` on a three-page document
extracts pages 1 and 3 once each, in ascending order. -/
theorem c10_extract_sorted_dedup_witness :
    extract_pages {} [("doc.pdf", ⟨10, .pdf ⟨[⟨1, 0⟩, ⟨2, 0⟩, ⟨3, 0⟩], false, false⟩⟩)]
      "doc.pdf" "out.pdf" [3, 1, 3] =
      .ok (FS.write [("doc.pdf", ⟨10, .pdf ⟨[⟨1, 0⟩, ⟨2, 0⟩, ⟨3, 0⟩], false, false⟩⟩)]
             "out.pdf" ⟨0, .pdf ⟨(pySortedSet [3, 1, 3]).map (fun k =>
                ([⟨1, 0⟩, ⟨2, 0⟩, ⟨3, 0⟩] : List Page).getD (k.toNat - 1) default),
                false, false⟩⟩,
           "Pages extracted successfully: " ++ "out.pdf") :=
  (c10_extract_sorted_dedup {}
    [("doc.pdf", ⟨10, .pdf ⟨[⟨1, 0⟩, ⟨2, 0⟩, ⟨3, 0⟩], false, false⟩⟩)]
    "doc.pdf" "out.pdf" ⟨[⟨1, 0⟩, ⟨2, 0⟩, ⟨3, 0⟩], false, false⟩ [3, 1, 3]
    (by decide) (by decide) (by decide)).1

/-! ## C8: password policy of protect_pdf -/

/-- Counterexample to C8 as stated: with a valid input PDF, the weak
password `"abc"` is rejected with a `PDFValidationError`, but only after
file input has occurred — `_validate_pdf` has already opened and parsed
the input, so the trace at the raise is not empty.  The claim that the
rejection happens before any file input/output is therefore false. -/
theorem c8_weak_password_io_counterexample :
    (protect_pdf {} [("doc.pdf", ⟨10, .pdf ⟨[⟨1, 0⟩], false, false⟩⟩)]
        "doc.pdf" "out.pdf" "abc" none).2 = [.readFile "doc.pdf"]
    ∧ ([IOEvent.readFile "doc.pdf"] : List IOEvent) ≠ []
    ∧ isValidationError (protect_pdf {}
        [("doc.pdf", ⟨10, .pdf ⟨[⟨1, 0⟩], false, false⟩⟩)]
        "doc.pdf" "out.pdf" "abc" none).1 = true := by
  exact ⟨by decide, by decide, by decide⟩

/-- C8 (amended): once the input PDF has been validated (which reads the
input file), every password that is shorter than 8 characters or lacks a
digit or lacks a non-alphanumeric character is rejected with
`PDFValidationError` before any further file input/output — in particular
nothing is ever written; and every password meeting the policy (such as
`"Secur3!ty"`) makes the operation succeed and write an encrypted output. -/
theorem c8_password_policy_amended (p : PDFProcessor) (fs : FS)
    (input output pw : String) (owner : Option String)
    (d : PdfData) (ev : List IOEvent)
    (hv : _validate_pdf_traced p fs input = (.ok d, ev)) :
    ((pw.length < 8 ∨ pw.data.any Char.isDigit = false ∨
        pw.data.any (fun c => !c.isAlphanum) = false) →
      isValidationError (protect_pdf p fs input output pw owner).1 = true
      ∧ (protect_pdf p fs input output pw owner).2 = ev
      ∧ ∀ e ∈ (protect_pdf p fs input output pw owner).2, e.isWrite = false)
    ∧ (¬ pw.length < 8 → pw.data.any Char.isDigit = true →
        pw.data.any (fun c => !c.isAlphanum) = true →
      (protect_pdf p fs input output pw owner).1 =
        .ok (fs.write output ⟨0, .pdf ⟨d.pages, false, true⟩⟩,
             "PDF protected: " ++ output)) := by
  have hreads : ∀ e ∈ ev, e.isWrite = false := by
    intro e he
    have := validate_traced_reads p fs input e
    rw [hv] at this
    exact this he
  constructor
  · intro hweak
    by_cases hlen : pw.length < 8
    · refine ⟨?_, ?_, ?_⟩
      · simp [protect_pdf, protect_body_traced, hv, hlen, withErrorHandling,
          isCustomExc, isValidationError]
      · simp [protect_pdf, protect_body_traced, hv, hlen]
      · simp only [protect_pdf, protect_body_traced, hv, if_pos hlen]
        exact hreads
    · have hds : ¬(pw.data.any Char.isDigit && pw.data.any (fun c => !c.isAlphanum)) = true := by
        rcases hweak with h | h | h
        · exact absurd h hlen
        · simp [h]
        · simp [h]
      refine ⟨?_, ?_, ?_⟩
      · simp only [protect_pdf, protect_body_traced, hv, if_neg hlen]
        simp [hds, withErrorHandling, isCustomExc, isValidationError]
      · simp only [protect_pdf, protect_body_traced, hv, if_neg hlen]
        simp [hds]
      · simp only [protect_pdf, protect_body_traced, hv, if_neg hlen]
        simp only [Bool.not_eq_true] at hds
        simp [hds]
        exact hreads
  · intro hlen hdig hspec
    simp [protect_pdf, protect_body_traced, hv, hlen, hdig, hspec, withErrorHandling]

/-- Witness for C8 on a concrete document: `"abc"` is rejected after the
validating read and before any write; `"Secur3!ty"` succeeds and writes an
encrypted output. -/
theorem c8_password_policy_amended_witness :
    (isValidationError (protect_pdf {}
        [("doc.pdf", ⟨10, .pdf ⟨[⟨1, 0⟩], false, false⟩⟩)]
        "doc.pdf" "out.pdf" "abc" none).1 = true
     ∧ (protect_pdf {} [("doc.pdf", ⟨10, .pdf ⟨[⟨1, 0⟩], false, false⟩⟩)]
          "doc.pdf" "out.pdf" "abc" none).2 = [.readFile "doc.pdf"]
     ∧ ∀ e ∈ (protect_pdf {} [("doc.pdf", ⟨10, .pdf ⟨[⟨1, 0⟩], false, false⟩⟩)]
          "doc.pdf" "out.pdf" "abc" none).2, e.isWrite = false)
    ∧ (protect_pdf {} [("doc.pdf", ⟨10, .pdf ⟨[⟨1, 0⟩], false, false⟩⟩)]
        "doc.pdf" "out.pdf" "Secur3!ty" none).1 =
      .ok (FS.write [("doc.pdf", ⟨10, .pdf ⟨[⟨1, 0⟩], false, false⟩⟩)]
             "out.pdf" ⟨0, .pdf ⟨[⟨1, 0⟩], false, true⟩⟩,
           "PDF protected: " ++ "out.pdf") := by
  have h1 := c8_password_policy_amended {}
    [("doc.pdf", ⟨10, .pdf ⟨[⟨1, 0⟩], false, false⟩⟩)]
    "doc.pdf" "out.pdf" "abc" none ⟨[⟨1, 0⟩], false, false⟩
    [.readFile "doc.pdf"] (by decide)
  have h2 := c8_password_policy_amended {}
    [("doc.pdf", ⟨10, .pdf ⟨[⟨1, 0⟩], false, false⟩⟩)]
    "doc.pdf" "out.pdf" "Secur3!ty" none ⟨[⟨1, 0⟩], false, false⟩
    [.readFile "doc.pdf"] (by decide)
  exact ⟨h1.1 (Or.inl (by decide)), h2.2 (by decide) (by decide) (by decide)⟩

/-! ## C9: page-range parsing -/

/-- Every parse failure of `int()` is a built-in `ValueError`. -/
theorem pyInt_error_valueError (s : String) (e : PyExc)
    (h : pyInt s = .error e) : ∃ m, e = .valueError m := by
  unfold pyInt at h
  dsimp only at h
  split at h
  · split at h
    · cases h
    · cases h; exact ⟨_, rfl⟩
  · split at h
    · cases h
    · cases h; exact ⟨_, rfl⟩
  · split at h
    · cases h
    · cases h; exact ⟨_, rfl⟩

/-- Every failure of a defaulted range endpoint is a `ValueError`. -/
theorem defaultedInt_error_valueError (dflt : Int) (tok : String) (e : PyExc)
    (h : defaultedInt dflt tok = .error e) : ∃ m, e = .valueError m := by
  unfold defaultedInt at h
  split at h
  · cases h
  · exact pyInt_error_valueError tok e h

/-- Every failure of one range token is a `ValueError`. -/
theorem parsePart_error_valueError (n : Nat) (part : String) (e : PyExc)
    (h : parsePart n part = .error e) : ∃ m, e = .valueError m := by
  unfold parsePart at h
  split at h
  · split at h
    · split at h
      · rename_i herr
        cases h
        exact defaultedInt_error_valueError _ _ _ herr
      · split at h
        · rename_i herr
          cases h
          exact defaultedInt_error_valueError _ _ _ herr
        · cases h
    · cases h; exact ⟨_, rfl⟩
  · split at h
    · rename_i herr
      cases h
      exact pyInt_error_valueError _ _ herr
    · cases h

/-- Every failure of the token loop is a `ValueError`. -/
theorem parseParts_error_valueError (n : Nat) :
    ∀ (parts : List String) (e : PyExc),
    parseParts n parts = .error e → ∃ m, e = .valueError m := by
  intro parts
  induction parts with
  | nil => intro e h; cases h
  | cons t ts ih =>
      intro e h
      unfold parseParts at h
      split at h
      · rename_i herr
        cases h
        exact parsePart_error_valueError n t e herr
      · split at h
        · rename_i herr
          cases h
          exact ih e herr
        · cases h

/-- Every failure of `parse_page_ranges` is a built-in `ValueError`, never
the typed `PDFValidationError`. -/
theorem parse_page_ranges_error_valueError (s : String) (n : Nat) (e : PyExc)
    (h : parse_page_ranges s n = .error e) : ∃ m, e = .valueError m := by
  unfold parse_page_ranges at h
  split at h
  · cases h
  · split at h
    · rename_i herr
      cases h
      exact parseParts_error_valueError n _ e herr
    · cases h

/-- C9 (amended): the parser maps `"1-3,5,7-9"` to `[1,2,3,5,7,8,9]` for
every page count and `"all"` over a 5-page document to `[1,2,3,4,5]`; a
malformed token raises an error, but that error is the Python built-in
`ValueError` coming out of `int(...)` (or tuple unpacking), not the typed
`ValidationError` of the core. -/
theorem c9_page_range_parsing_amended :
    (∀ total_pages : Nat,
      parse_page_ranges "1-3,5,7-9" total_pages = .ok [1, 2, 3, 5, 7, 8, 9])
    ∧ parse_page_ranges "all" 5 = .ok [1, 2, 3, 4, 5]
    ∧ isValueError (parse_page_ranges "1-3,x" 5) = true
    ∧ isValidationError (parse_page_ranges "1-3,x" 5) = false
    ∧ (∀ (s : String) (n : Nat) (e : PyExc),
        parse_page_ranges s n = .error e → ∃ m, e = .valueError m) :=
  ⟨fun _ => rfl, by decide, by decide, by decide, parse_page_ranges_error_valueError⟩

/-- Witness for C9 at concrete inputs. -/
theorem c9_page_range_parsing_amended_witness :
    parse_page_ranges "1-3,5,7-9" 9 = .ok [1, 2, 3, 5, 7, 8, 9]
    ∧ ∃ m, (PyExc.valueError "invalid literal for int() with base 10: x") =
        .valueError m :=
  ⟨c9_page_range_parsing_amended.1 9,
   c9_page_range_parsing_amended.2.2.2.2 "x" 5 _ (by decide)⟩

/-- Counterexample to C9 as stated: the malformed token `"x"` raises the
built-in `ValueError`, which is not a `PDFValidationError`. -/
theorem c9_malformed_token_counterexample :
    parse_page_ranges "x" 5 =
      .error (.valueError "invalid literal for int() with base 10: x")
    ∧ isValidationError (parse_page_ranges "x" 5) = false := by
  exact ⟨by decide, by decide⟩

/-! ## C4: bulk processing -/

/-- When the bulk loop returns a summary, it contains one message per
processed file. -/
theorem bulkLoop_ok_length (mn dir : String)
    (run : FS → String → String → Except PyExc (FS × String)) :
    ∀ (files : List String) (fs : FS) (i : Nat) (fs' : FS) (msgs : List String),
    bulkLoop mn dir run fs files i = .ok (fs', msgs) →
    msgs.length = files.length := by
  intro files
  induction files with
  | nil =>
      intro fs i fs' msgs h
      unfold bulkLoop at h
      cases h
      rfl
  | cons f rest ih =>
      intro fs i fs' msgs h
      unfold bulkLoop at h
      split at h
      · cases h
      · split at h
        · cases h
        · rename_i hrec
          cases h
          simp [ih _ _ _ _ hrec]

/-- C4 (amended): `bulk_process` is fail-fast, not partial-failure
tolerant: the typed error of the first failing item propagates out of
`bulk_process` unchanged, aborting the remaining items, and no summary is
returned; the aggregate summary — one message per file — is produced only
when every item succeeds. -/
theorem c4_bulk_not_partial_tolerant (p : PDFProcessor) (fs : FS)
    (method_name output_dir : String)
    (run : FS → String → String → Except PyExc (FS × String))
    (hnm : method_name ≠ "merge_pdfs") :
    (∀ (file : String) (rest : List String) (e : PyExc),
        run fs file (bulkOutName method_name output_dir file 0) = .error e →
        isCustomExc e = true →
        bulk_process p fs method_name (file :: rest) output_dir run = .error e)
    ∧ (∀ (file_list : List String) (fs' : FS) (msgs : List String),
        file_list ≠ [] →
        bulkLoop method_name output_dir run fs file_list 0 = .ok (fs', msgs) →
        bulk_process p fs method_name file_list output_dir run =
          .ok (fs', "Bulk processed " ++ toString file_list.length ++ " files: "
               ++ toString msgs)
        ∧ msgs.length = file_list.length) := by
  constructor
  · intro file rest e hrun hcust
    have hne : (file :: rest : List String) ≠ [] := by simp
    simp only [bulk_process, if_neg hne, if_neg hnm]
    unfold bulkLoop
    rw [hrun]
    exact wrap_custom _ e hcust
  · intro fl fs' msgs hne hloop
    refine ⟨?_, bulkLoop_ok_length method_name output_dir run fl fs 0 fs' msgs hloop⟩
    simp only [bulk_process, if_neg hne, if_neg hnm, hloop]
    rfl

/-- Witness for C4 (amended): a failing single-file list propagates the
validation error; a succeeding single-file list yields the summary. -/
theorem c4_bulk_not_partial_tolerant_witness :
    bulk_process {} [] "rotate_pdf" ["missing.pdf"] "outdir"
      (fun fs file out => rotate_pdf {} fs file out 90 none) =
      .error (.pdfValidationError "File not found: missing.pdf")
    ∧ bulk_process {} [("a.pdf", ⟨10, .pdf ⟨[⟨1, 0⟩], false, false⟩⟩)] "rotate_pdf"
        ["a.pdf"] "outdir"
        (fun fs file out => rotate_pdf {} fs file out 90 none) =
      .ok ([("outdir/a.pdf_processed.pdf", ⟨0, .pdf ⟨[⟨1, 90⟩], false, false⟩⟩),
            ("a.pdf", ⟨10, .pdf ⟨[⟨1, 0⟩], false, false⟩⟩)],
           "Bulk processed " ++ toString (["a.pdf"].length) ++ " files: "
             ++ toString ["PDF rotated successfully: outdir/a.pdf_processed.pdf"]) := by
  constructor
  · exact (c4_bulk_not_partial_tolerant {} [] "rotate_pdf" "outdir"
      (fun fs file out => rotate_pdf {} fs file out 90 none) (by decide)).1
      "missing.pdf" [] _ (by decide) (by decide)
  · exact ((c4_bulk_not_partial_tolerant {}
      [("a.pdf", ⟨10, .pdf ⟨[⟨1, 0⟩], false, false⟩⟩)] "rotate_pdf" "outdir"
      (fun fs file out => rotate_pdf {} fs file out 90 none) (by decide)).2
      ["a.pdf"] _ ["PDF rotated successfully: outdir/a.pdf_processed.pdf"]
      (by decide) (by decide)).1

/-- Counterexample to C4 as stated: on the file list
`[valid.pdf, missing.pdf]` with `rotate_pdf` and rotation 90,
`bulk_process` raises the missing-file `PDFValidationError` instead of
returning a summary with one success and one recorded failure. -/
theorem c4_bulk_raises_counterexample :
    bulk_process {} [("a.pdf", ⟨10, .pdf ⟨[⟨1, 0⟩], false, false⟩⟩)] "rotate_pdf"
      ["a.pdf", "missing.pdf"] "outdir"
      (fun fs file out => rotate_pdf {} fs file out 90 none) =
      .error (.pdfValidationError "File not found: missing.pdf") := by decide

/-! ## C5 and C6: workflow executor -/

/-- C5: whatever the step methods do and however the workflow exits, every
temporary per-step output file the workflow generated is absent from the
filesystem when `execute_workflow` finishes — the `finally` cleanup removes
each tracked temporary on success and on any raised exception alike. -/
theorem c5_workflow_temp_cleanup (run : RunMethod) (fs : FS)
    (operations : List WorkflowOp) :
    ∀ t ∈ (execute_workflow run fs operations).2.2.1,
      ((execute_workflow run fs operations).2.1).find t = none := by
  intro t ht
  by_cases hop : operations = []
  · simp [execute_workflow, hop] at ht
  · simp only [execute_workflow, if_neg hop] at ht ⊢
    exact removeAll_find_none _ _ t ht

/-- Witness for C5: a one-step rotate workflow generates `temp_0.pdf` and
leaves no trace of it on the final filesystem. -/
theorem c5_workflow_temp_cleanup_witness :
    "temp_0.pdf" ∈ (execute_workflow (methodDispatch {})
        [("a.pdf", ⟨10, .pdf ⟨[⟨1, 0⟩], false, false⟩⟩)]
        [⟨"rotate_pdf", { input_path := some "a.pdf", rotation := some 90 }⟩]).2.2.1
    ∧ ((execute_workflow (methodDispatch {})
        [("a.pdf", ⟨10, .pdf ⟨[⟨1, 0⟩], false, false⟩⟩)]
        [⟨"rotate_pdf", { input_path := some "a.pdf", rotation := some 90 }⟩]).2.1).find
       "temp_0.pdf" = none :=
  ⟨by decide,
   c5_workflow_temp_cleanup (methodDispatch {})
     [("a.pdf", ⟨10, .pdf ⟨[⟨1, 0⟩], false, false⟩⟩)]
     [⟨"rotate_pdf", { input_path := some "a.pdf", rotation := some 90 }⟩]
     "temp_0.pdf" (by decide)⟩

/-- A step message without the success marker makes the loop abort at that
step with `PDFOperationError`, and that message closes the observed list
(nothing runs after it); every earlier message carried the marker. -/
theorem workflowLoop_bad_marker (run : RunMethod) :
    ∀ (ops : List WorkflowOp) (cur : Option String) (k : Nat) (fs : FS) (m : String),
    m ∈ (workflowLoop run ops cur k fs).2.2.2 →
    hasSuccessMarker m = false →
    (workflowLoop run ops cur k fs).1 =
      .error (.pdfOperationError ("Workflow step failed: " ++ m))
    ∧ ∃ pre, (workflowLoop run ops cur k fs).2.2.2 = pre ++ [m]
        ∧ ∀ m2 ∈ pre, hasSuccessMarker m2 = true := by
  intro ops
  induction ops with
  | nil =>
      intro cur k fs m hm _
      simp [workflowLoop] at hm
  | cons op rest ih =>
      intro cur k fs m hm hbad
      unfold workflowLoop at hm ⊢
      dsimp only at hm ⊢
      cases hr : run op.method fs (stepPrep cur k op.args).1 with
      | error e =>
          rw [hr] at hm
          simp at hm
      | ok pr =>
          obtain ⟨fs1, msg⟩ := pr
          rw [hr] at hm
          dsimp only at hm ⊢
          by_cases hmk : hasSuccessMarker msg = true
          · rw [if_pos hmk] at hm ⊢
            dsimp only at hm ⊢
            rcases List.mem_cons.mp hm with rfl | hmem
            · rw [hmk] at hbad
              cases hbad
            · obtain ⟨h1, pre, hpre, hgood⟩ :=
                ih (stepPrep cur k op.args).1.output_path (stepPrep cur k op.args).2.2
                  fs1 m hmem hbad
              refine ⟨h1, msg :: pre, ?_, ?_⟩
              · simp [hpre]
              · intro m2 hm2
                rcases List.mem_cons.mp hm2 with rfl | h2
                · exact hmk
                · exact hgood m2 h2
          · rw [if_neg hmk] at hm ⊢
            dsimp only at hm ⊢
            have hmm : m = msg := by simpa using hm
            subst hmm
            exact ⟨rfl, [], by simp, by simp⟩

/-- When the loop completes, every observed step message carried the
success marker. -/
theorem workflowLoop_ok_marker (run : RunMethod) :
    ∀ (ops : List WorkflowOp) (cur : Option String) (k : Nat) (fs : FS) (s : String),
    (workflowLoop run ops cur k fs).1 = .ok s →
    ∀ m ∈ (workflowLoop run ops cur k fs).2.2.2, hasSuccessMarker m = true := by
  intro ops
  induction ops with
  | nil =>
      intro cur k fs s _ m hm
      simp [workflowLoop] at hm
  | cons op rest ih =>
      intro cur k fs s hok m hm
      unfold workflowLoop at hok hm
      dsimp only at hok hm
      cases hr : run op.method fs (stepPrep cur k op.args).1 with
      | error e =>
          rw [hr] at hok
          cases hok
      | ok pr =>
          obtain ⟨fs1, msg⟩ := pr
          rw [hr] at hok hm
          dsimp only at hok hm
          by_cases hmk : hasSuccessMarker msg = true
          · rw [if_pos hmk] at hok hm
            dsimp only at hok hm
            rcases List.mem_cons.mp hm with rfl | hmem
            · exact hmk
            · exact ih (stepPrep cur k op.args).1.output_path (stepPrep cur k op.args).2.2
                fs1 s hok m hmem
          · rw [if_neg hmk] at hok
            cases hok

/-- C6: during `execute_workflow` every step result is checked for a
success marker; a step whose message lacks the marker aborts the workflow
immediately with `PDFOperationError("Workflow step failed: ...")` — that
message is the last one observed, nothing after it runs, and the workflow
cannot return the completed state; conversely a workflow that does return
success saw the marker in every step message. -/
theorem c6_missing_marker_aborts (run : RunMethod) (fs : FS)
    (ops : List WorkflowOp) :
    (∀ m ∈ (execute_workflow run fs ops).2.2.2, hasSuccessMarker m = false →
       (execute_workflow run fs ops).1 =
         .error (.pdfOperationError ("Workflow step failed: " ++ m))
       ∧ (∃ pre, (execute_workflow run fs ops).2.2.2 = pre ++ [m]
            ∧ ∀ m2 ∈ pre, hasSuccessMarker m2 = true)
       ∧ ∀ s, (execute_workflow run fs ops).1 ≠ .ok s)
    ∧ (∀ s, (execute_workflow run fs ops).1 = .ok s →
        ∀ m ∈ (execute_workflow run fs ops).2.2.2, hasSuccessMarker m = true) := by
  by_cases hop : ops = []
  · constructor
    · intro m hm
      simp [execute_workflow, hop] at hm
    · intro s _ m hm
      simp [execute_workflow, hop] at hm
  · simp only [execute_workflow, if_neg hop]
    constructor
    · intro m hm hbad
      obtain ⟨h1, hpre⟩ := workflowLoop_bad_marker run ops none 0 fs m hm hbad
      rw [h1]
      have hw := wrap_custom "execute_workflow"
        (.pdfOperationError ("Workflow step failed: " ++ m))
        (α := String) rfl
      refine ⟨hw, hpre, ?_⟩
      intro s hs
      rw [hw] at hs
      cases hs
    · intro s hs m hm
      rw [wrap_ok_iff] at hs
      exact workflowLoop_ok_marker run ops none 0 fs s hs m hm

/-- Witness for C6: a `validate_pdf_a` step succeeds with a message lacking
the marker, and the workflow aborts with exactly that step failure. -/
theorem c6_missing_marker_aborts_witness :
    (execute_workflow (methodDispatch {})
        [("a.pdf", ⟨10, .pdf ⟨[⟨1, 0⟩], false, false⟩⟩)]
        [⟨"validate_pdf_a", { input_path := some "a.pdf" }⟩]).1 =
      .error (.pdfOperationError
        ("Workflow step failed: " ++ "PDF does not appear to be PDF/A compliant")) :=
  ((c6_missing_marker_aborts (methodDispatch {})
      [("a.pdf", ⟨10, .pdf ⟨[⟨1, 0⟩], false, false⟩⟩)]
      [⟨"validate_pdf_a", { input_path := some "a.pdf" }⟩]).1
    "PDF does not appear to be PDF/A compliant" (by decide) (by decide)).1

end PdfProc
